import Mathlib

/-!
Verification of the Prosilica areaDetector driver (prosilicaApp/src/prosilica.cpp)
against its natural-language specification.  The driver code is shallowly
embedded: each C++ member function that a claim depends on is translated into
an executable Lean function over explicit state records, with the vendor SDK
(PvApi) and the areaDetector base classes represented by oracles and named
constants, since they are external collaborators of this repository.
-/

namespace Prosilica

/-- Status codes of the asyn layer (external collaborator `asynDriver`):
`asynSuccess = 0`, `asynError = 1`. -/
def asynSuccess : Nat := 0

/-- Generic asyn failure code. -/
def asynError : Nat := 1

/-- Vendor SDK error codes, from the external PvApi header: success is 0. -/
def ePvErrSuccess : Nat := 0

/-- Vendor SDK error code for an attribute that the camera model lacks. -/
def ePvErrNotFound : Nat := 6

/-- Vendor SDK error code marking a frame completion produced by queue
cancellation during shutdown. -/
def ePvErrCancelled : Nat := 14

/-- Number of times connectCamera re-polls for master access
(`#define CONNECT_RETRY_COUNT 30`, prosilica.cpp:54). -/
def CONNECT_RETRY_COUNT : Nat := 30

/-- Seconds slept between access polls
(`#define CONNECT_RETRY_INTERVAL 1`, prosilica.cpp:55). -/
def CONNECT_RETRY_INTERVAL : Nat := 1

/-- Seconds between the POSIX epoch (1970) and the EPICS epoch (1990),
used by `epicsTimeToTimespec` of the external EPICS time library. -/
def POSIX_TIME_AT_EPICS_EPOCH : Nat := 631152000

/-- Largest valid vendor Bayer pattern code (`ePvBayerBGGR = 3`); the four
valid codes are RGGB=0, GBRG=1, GRBG=2, BGGR=3. -/
def ePvBayerBGGR : Nat := 3

/-- Default Bayer pattern substituted for invalid codes (`ePvBayerRGGB = 0`). -/
def ePvBayerRGGB : Nat := 0

/-- areaDetector color mode codes (external NDArray.h). -/
def NDColorModeMono : Int := 0

/-- Bayer color mode code. -/
def NDColorModeBayer : Int := 1

/-- RGB pixel-interleaved color mode code. -/
def NDColorModeRGB1 : Int := 2

/-- RGB row-interleaved color mode code. -/
def NDColorModeRGB2 : Int := 3

/-- RGB planar color mode code. -/
def NDColorModeRGB3 : Int := 4

/-- areaDetector data type codes (external NDArray.h). -/
def NDInt8 : Nat := 0

/-- Unsigned 8-bit data type code. -/
def NDUInt8 : Nat := 1

/-- Unsigned 16-bit data type code. -/
def NDUInt16 : Nat := 3

/-- areaDetector image mode: single frame. -/
def ADImageSingle : Int := 0

/-- areaDetector image mode: a configured number of frames. -/
def ADImageMultiple : Int := 1

/-- areaDetector image mode: unbounded streaming. -/
def ADImageContinuous : Int := 2

/-- areaDetector detector status: idle. -/
def ADStatusIdle : Int := 0

/-- areaDetector detector status: acquiring. -/
def ADStatusAcquire : Int := 1

/-- Bayer conversion modes (enum PSBayerConvert_t, prosilica.cpp:191). -/
def PSBayerConvertNone : Int := 0

/-- Bayer to pixel-interleaved RGB conversion mode. -/
def PSBayerConvertRGB1 : Int := 1

/-- Bayer to row-interleaved RGB conversion mode. -/
def PSBayerConvertRGB2 : Int := 2

/-- Bayer to planar RGB conversion mode. -/
def PSBayerConvertRGB3 : Int := 3

/-- Timestamp modes (enum PSTimestampType_t, prosilica.cpp:175). -/
def PSTimestampTypeNativeTicks : Int := 0

/-- Timestamp mode: native ticks divided by the tick frequency. -/
def PSTimestampTypeNativeSeconds : Int := 1

/-- Timestamp mode: seconds since the POSIX epoch. -/
def PSTimestampTypePOSIX : Int := 2

/-- Timestamp mode: seconds since the EPICS epoch. -/
def PSTimestampTypeEPICS : Int := 3

/-- Timestamp mode: the IOC clock timestamp stamped at decode time. -/
def PSTimestampTypeIOC : Int := 4

/-- An EPICS timestamp: seconds past the EPICS epoch plus nanoseconds
(external epicsTimeStamp struct). -/
structure EpicsTS where
  secPastEpoch : Nat
  nsec : Nat
deriving DecidableEq, Repr

/-- Value of an EPICS timestamp in rational seconds past the EPICS epoch.
Double-precision arithmetic of the source is modelled exactly over the
rationals. -/
def EpicsTS.toQ (t : EpicsTS) : ℚ := (t.secPastEpoch : ℚ) + (t.nsec : ℚ) / 1000000000

/-! ## Connection state and disconnectCamera (prosilica.cpp:1254-1308) -/

/-- Mutable per-instance session state relevant to connect/disconnect: the
process-wide PvApi initialisation flag, the native camera handle (`PvHandle`,
none when disconnected) and, for each of the `maxPvAPIFrames_` transfer
descriptors (`PvFrames[i]`), the id of the NDArray buffer bound in its
`Context[1]` slot (none when cleared). -/
structure SessionState where
  pvApiInitialized : Bool
  pvHandle : Option Nat
  frames : List (Option Nat)
deriving DecidableEq, Repr

/-- Results of the blocking vendor calls issued by disconnectCamera with the
lock released, and of the final asynManager exceptionDisconnect call. -/
structure VendorOracle where
  queueClearErr : Nat
  captureEndErr : Nat
  closeErr : Nat
  exceptionDisconnectErr : Nat

/-- Observable actions of disconnectCamera, in program order. -/
inductive DAct
  | unlock
  | vendorQueueClear
  | vendorCaptureEnd
  | vendorCameraClose
  | lock
  | releaseImage (bufId : Nat)
deriving DecidableEq, Repr

/-- Translation of `prosilica::disconnectCamera` (prosilica.cpp:1254-1308):
returns asynError if PvApi is uninitialised; returns asynSuccess immediately
when the handle is already null; otherwise releases the lock around the
blocking queue-clear/capture-end/close vendor calls, reacquires it, releases
every descriptor bound image buffer and clears its `Context[1]` pointer, nulls
the handle and returns the status of the exceptionDisconnect call. -/
def disconnectCamera (v : VendorOracle) (s : SessionState) :
    Nat × SessionState × List DAct :=
  if s.pvApiInitialized = false then (asynError, s, [])
  else if s.pvHandle = none then (asynSuccess, s, [])
  else
    let released := s.frames.filterMap id
    let s2 : SessionState :=
      { s with pvHandle := none, frames := s.frames.map (fun _ => none) }
    (v.exceptionDisconnectErr, s2,
      [DAct.unlock, DAct.vendorQueueClear, DAct.vendorCaptureEnd,
       DAct.vendorCameraClose, DAct.lock] ++ released.map DAct.releaseImage)

/-! ## Access-retry loop of connectCamera (prosilica.cpp:1376-1402) -/

/-- Exit of the access-wait while loop: either the loop exited after `sleeps`
sleep/re-poll iterations with the final master-access bit `access`, or the
re-poll `PvCameraInfoEx` call itself failed after `sleeps` iterations. -/
inductive AccessPhase
  | exitLoop (sleeps : Nat) (access : Bool)
  | pollError (sleeps : Nat)
deriving DecidableEq, Repr

/-- The while loop of connectCamera that waits for master access
(prosilica.cpp:1379-1396).  `access` is the master-access bit of the most
recent `PvCameraInfoEx`; `poll i` is the result of the i-th re-poll inside the
loop (none models a failed `PvCameraInfoEx`); `p` counts completed sleep and
re-poll iterations (it equals the retryCount variable of the source).  The
loop re-polls while access is denied and breaks once `++retryCount >=
CONNECT_RETRY_COUNT`.  `fuel` is only a structural termination bound; it is
started at `CONNECT_RETRY_COUNT` and never reaches 0 before the break fires. -/
def accessWaitGo (poll : Nat → Option Bool) : Nat → Nat → Bool → AccessPhase
  | _, p, true => AccessPhase.exitLoop p true
  | 0, p, false => AccessPhase.exitLoop p false
  | fuel + 1, p, false =>
    match poll (p + 1) with
    | none => AccessPhase.pollError (p + 1)
    | some a =>
      if CONNECT_RETRY_COUNT ≤ p + 1 then AccessPhase.exitLoop (p + 1) a
      else accessWaitGo poll fuel (p + 1) a

/-- Translation of `prosilica::connectCamera` from its entry through the
master-access phase (prosilica.cpp:1337-1402): it first calls
disconnectCamera, then (identity resolution abstracted; `init` is the
master-access bit of the resolution-time `PvCameraInfoEx`) runs the
access-wait loop and fails with asynError when access is still denied when
the loop exits.  Returns the status, the session state and the number of
sleep/re-poll iterations executed. -/
def connectCameraAccessPhase (v : VendorOracle) (poll : Nat → Option Bool)
    (init : Bool) (s : SessionState) : Nat × SessionState × Nat :=
  if s.pvApiInitialized = false then (asynError, s, 0)
  else
    let s1 := (disconnectCamera v s).2.1
    match accessWaitGo poll CONNECT_RETRY_COUNT 0 init with
    | AccessPhase.pollError n => (asynError, s1, n)
    | AccessPhase.exitLoop n a =>
      if a then (asynSuccess, s1, n) else (asynError, s1, n)

/-! ## setGeometry (prosilica.cpp:865-911) -/

/-- Geometry slots of the parameter store read and written by setGeometry. -/
structure GeoStore where
  binX : Int
  binY : Int
  minX : Int
  minY : Int
  sizeX : Int
  sizeY : Int
  maxSizeX : Int
  maxSizeY : Int
deriving DecidableEq, Repr

/-- One camera attribute write attempted by setGeometry. -/
structure GeoSet where
  name : String
  value : Int
deriving DecidableEq, Repr

/-- Translation of `prosilica::setGeometry` (prosilica.cpp:865-911): reads the
geometry parameters, clamps each binning to at least 1 locally, clamps each
size so that offset plus size does not exceed the sensor maximum and writes
the clamped size back to the parameter store, sets the binning attributes
(tolerating ePvErrNotFound), and, only when no error was accumulated so far,
writes region and size attributes in binned units using the truncating
division of C.  `setErr` gives the vendor status of each attribute write. -/
def setGeometry (setErr : String → Nat) (p : GeoStore) :
    Nat × GeoStore × List GeoSet :=
  let binX := if p.binX < 1 then 1 else p.binX
  let binY := if p.binY < 1 then 1 else p.binY
  let sizeX := if p.minX + p.sizeX > p.maxSizeX then p.maxSizeX - p.minX else p.sizeX
  let sizeY := if p.minY + p.sizeY > p.maxSizeY then p.maxSizeY - p.minY else p.sizeY
  let p1 := { p with sizeX := sizeX, sizeY := sizeY }
  let sBinX := setErr "BinningX"
  let status := if sBinX = ePvErrNotFound then 0 else sBinX
  let sBinY := setErr "BinningY"
  let status := if sBinY = ePvErrNotFound then status else status ||| sBinY
  let sets := [⟨"BinningX", binX⟩, ⟨"BinningY", binY⟩]
  if status = 0 then
    let status := status ||| setErr "RegionX" ||| setErr "RegionY" |||
      setErr "Width" ||| setErr "Height"
    (status, p1, sets ++
      [⟨"RegionX", p1.minX.tdiv binX⟩, ⟨"RegionY", p1.minY.tdiv binY⟩,
       ⟨"Width", p1.sizeX.tdiv binX⟩, ⟨"Height", p1.sizeY.tdiv binY⟩])
  else
    (status, p1, sets)

/-! ## Frame decoder: frameCallback (prosilica.cpp:468-838) -/

/-- One axis of an NDArray: size, offset and binning (external NDArray.h). -/
structure NDDim where
  size : Int
  offset : Int
  binning : Int
deriving DecidableEq, Repr

/-- The canonical image record (external NDArray), restricted to the fields
the driver reads or writes: an allocation identity standing for the buffer
pointer, the fields set by frameCallback, and the attached attribute list. -/
structure NDImage where
  bufId : Nat
  uniqueId : Int
  epicsTS : EpicsTS
  dataType : Nat
  ndims : Nat
  dims : List NDDim
  timeStamp : ℚ
  attrs : List (String × Int)
deriving DecidableEq, Repr

/-- Allocation from the external NDArrayPool
(`pNDArrayPool->alloc(ndims, dims, dataType, ...)`): the requested sizes with
zero offsets and binning 1, and the remaining fields in their freshly
allocated state.  `bufId` is a fresh identity for the new buffer. -/
def NDImage.alloc (bufId : Nat) (dims : List Int) (dataType : Nat) : NDImage :=
  { bufId := bufId, uniqueId := 0, epicsTS := ⟨0, 0⟩, dataType := dataType,
    ndims := dims.length, dims := dims.map (fun sz => ⟨sz, 0, 1⟩),
    timeStamp := 0, attrs := [] }

/-- Vendor pixel formats of a completed frame (`pFrame->Format`); `other`
covers every format the driver does not support, with its numeric code. -/
inductive PvFmt
  | mono8
  | mono16
  | bayer8
  | bayer16
  | rgb24
  | rgb48
  | other (code : Nat)
deriving DecidableEq, Repr

/-- A vendor transfer descriptor (`tPvFrame`) as seen by frameCallback: the
completion status, the reported format and geometry, the reported Bayer
pattern, the frame counter, the 64-bit tick timestamp in two 32-bit halves,
and the NDArray bound in `Context[1]` (none models a null pointer). -/
structure PvFrame where
  status : Nat
  format : PvFmt
  width : Nat
  height : Nat
  regionX : Nat
  regionY : Nat
  bayerPattern : Nat
  frameCount : Int
  timestampLo : Nat
  timestampHi : Nat
  context1 : Option NDImage
deriving DecidableEq, Repr

/-- Parameter-store slots read and written by frameCallback. -/
structure CbParams where
  adBinX : Int
  adBinY : Int
  psBayerConvert : Int
  psTimestampType : Int
  ndArrayCallbacks : Int
  psBadFrameCounter : Int
  ndArrayCounter : Int
  adAcquire : Int
  adStatus : Int
  shutter : Int
deriving DecidableEq, Repr

/-- Driver instance state used by frameCallback: the mirrored parameters, the
frames-remaining counter, the tick frequency and last clock-sync time read at
connect, the retained last good image (`pArrays[0]`), the sensor geometry for
buffer reallocation, a counter supplying fresh buffer identities for pool
allocations, and the externally registered attributes merged by
`getAttributes`. -/
structure DrvState where
  params : CbParams
  framesRemaining : Int
  timeStampFrequency : Nat
  lastSyncTime : EpicsTS
  pArrays0 : Option NDImage
  sensorWidth : Nat
  sensorHeight : Nat
  maxFrameSize : Nat
  allocCounter : Nat
  externAttrs : List (String × Int)
deriving DecidableEq, Repr

/-- Observable actions of frameCallback, in program order. -/
inductive CbAct
  | lock
  | releaseImage (bufId : Nat)
  | deliverImage (img : NDImage)
  | paramCallbacks
  | requeueFrame
  | unlock
deriving DecidableEq, Repr

/-- Result of one frameCallback invocation: the new driver state, the
descriptor as left for requeueing, and the action trace. -/
structure CbResult where
  state : DrvState
  frame : PvFrame
  trace : List CbAct
deriving DecidableEq, Repr

/-- The native tick count of a frame:
`(double)TimestampLo + (double)TimestampHi*4294967296.` (prosilica.cpp:736),
with double arithmetic modelled exactly over the rationals. -/
def nativeFrameTicks (f : PvFrame) : ℚ :=
  (f.timestampLo : ℚ) + (f.timestampHi : ℚ) * 4294967296

/-- Timestamp switch of frameCallback (prosilica.cpp:738-778).  Returns the
timestamp written to the image and the possibly updated member
`timeStampFrequency` (the source overwrites a zero frequency with 1 in the
seconds-based modes).  `imageTS` is the `epicsTS` field of the image at the
time of the switch; `epicsTimeAddSeconds` followed by `epicsTimeToTimespec`
is modelled as exact rational addition, with the POSIX mode shifted by the
epoch difference.  An out-of-range mode falls to the default case, the raw
tick count. -/
def frameTimestamp (mode : Int) (ticks : ℚ) (freq : Nat)
    (lastSync imageTS : EpicsTS) : ℚ × Nat :=
  if mode = PSTimestampTypeNativeTicks then (ticks, freq)
  else if mode = PSTimestampTypeNativeSeconds then
    let freq := if freq = 0 then 1 else freq
    (ticks / (freq : ℚ), freq)
  else if mode = PSTimestampTypePOSIX then
    let freq := if freq = 0 then 1 else freq
    (lastSync.toQ + ticks / (freq : ℚ) + (POSIX_TIME_AT_EPICS_EPOCH : ℚ), freq)
  else if mode = PSTimestampTypeEPICS then
    let freq := if freq = 0 then 1 else freq
    (lastSync.toQ + ticks / (freq : ℚ), freq)
  else if mode = PSTimestampTypeIOC then (imageTS.toQ, freq)
  else (ticks, freq)

/-- The two-axis dimension record written for mono and unconverted Bayer
frames: frame width/height as sizes, region origin as offsets, and the
binning read from the parameter store. -/
def dims2 (f : PvFrame) (binX binY : Int) : List NDDim :=
  [⟨(f.width : Int), (f.regionX : Int), binX⟩,
   ⟨(f.height : Int), (f.regionY : Int), binY⟩]

/-- The Bayer-conversion arm of the format switch (prosilica.cpp:555-615 and
617-690): saves the incoming image, allocates a fresh 3-plane buffer at full
resolution, demosaics into the layout selected by the conversion mode, and
releases the original buffer.  When the conversion mode matches none of the
three layouts the source assigns neither dims nor colorMode, so the freshly
allocated image and the uninitialised local `colorMode` (argument
`junkColorMode`) are used.  Returns the new image, the colorMode local, the
next fresh buffer id and the release trace. -/
def bayerConvertArm (dt : Nat) (f : PvFrame) (pImage1 : NDImage)
    (binX binY bayerConvert : Int) (allocCounter : Nat) (junkColorMode : Int) :
    NDImage × Int × Nat × List CbAct :=
  let fresh := NDImage.alloc allocCounter [3, (f.width : Int), (f.height : Int)] dt
  let res :=
    if bayerConvert = PSBayerConvertRGB1 then
      ({ fresh with
          ndims := 3,
          dims := [⟨3, 0, 1⟩, ⟨(f.width : Int), (f.regionX : Int), binX⟩,
                   ⟨(f.height : Int), (f.regionY : Int), binY⟩] }, NDColorModeRGB1)
    else if bayerConvert = PSBayerConvertRGB2 then
      ({ fresh with
          ndims := 3,
          dims := [⟨(f.width : Int), (f.regionX : Int), binX⟩, ⟨3, 0, 1⟩,
                   ⟨(f.height : Int), (f.regionY : Int), binY⟩] }, NDColorModeRGB2)
    else if bayerConvert = PSBayerConvertRGB3 then
      ({ fresh with
          ndims := 3,
          dims := [⟨(f.width : Int), (f.regionX : Int), binX⟩,
                   ⟨(f.height : Int), (f.regionY : Int), binY⟩, ⟨3, 0, 1⟩] }, NDColorModeRGB3)
    else (fresh, junkColorMode)
  (res.1, res.2, allocCounter + 1, [CbAct.releaseImage pImage1.bufId])

/-- Format switch of frameCallback (prosilica.cpp:516-728).  Returns the
image carrying the decoded typing and dimensions, the value of the local
`colorMode`, the next fresh buffer id, and any release action.  In the
default (unsupported format) case the source only logs an error: the image
fields are left as they are and `colorMode` keeps its uninitialised value. -/
def formatDispatch (f : PvFrame) (pImage1 : NDImage)
    (binX binY bayerConvert : Int) (allocCounter : Nat) (junkColorMode : Int) :
    NDImage × Int × Nat × List CbAct :=
  match f.format with
  | PvFmt.mono8 =>
    ({ pImage1 with dataType := NDUInt8, ndims := 2, dims := dims2 f binX binY },
     NDColorModeMono, allocCounter, [])
  | PvFmt.mono16 =>
    ({ pImage1 with dataType := NDUInt16, ndims := 2, dims := dims2 f binX binY },
     NDColorModeMono, allocCounter, [])
  | PvFmt.bayer8 =>
    if bayerConvert = PSBayerConvertNone then
      ({ pImage1 with dataType := NDUInt8, ndims := 2, dims := dims2 f binX binY },
       NDColorModeBayer, allocCounter, [])
    else bayerConvertArm NDUInt8 f pImage1 binX binY bayerConvert allocCounter junkColorMode
  | PvFmt.bayer16 =>
    if bayerConvert = PSBayerConvertNone then
      ({ pImage1 with dataType := NDUInt16, ndims := 2, dims := dims2 f binX binY },
       NDColorModeBayer, allocCounter, [])
    else bayerConvertArm NDUInt16 f pImage1 binX binY bayerConvert allocCounter junkColorMode
  | PvFmt.rgb24 =>
    ({ pImage1 with
        dataType := NDUInt8, ndims := 3,
        dims := ⟨3, 0, 1⟩ :: dims2 f binX binY }, NDColorModeRGB1, allocCounter, [])
  | PvFmt.rgb48 =>
    ({ pImage1 with
        dataType := NDUInt16, ndims := 3,
        dims := ⟨3, 0, 1⟩ :: dims2 f binX binY }, NDColorModeRGB1, allocCounter, [])
  | PvFmt.other _ => (pImage1, junkColorMode, allocCounter, [])

/-- Success branch of frameCallback (prosilica.cpp:493-829), entered when the
bound image is non-null and the frame status is success: stamps uniqueId and
the decode-time clock on the incoming image, clamps an invalid Bayer pattern
on the descriptor, dispatches on the pixel format, attaches the BayerPattern
and ColorMode attributes, runs the timestamp switch, merges external
attributes, delivers the image when callbacks are enabled, updates the
frames-remaining counter with auto-stop at zero, increments the array
counter, replaces the retained last good image, and rebinds the descriptor to
a freshly allocated maximum-size buffer. -/
def frameSuccessPath (s : DrvState) (f : PvFrame) (pImage0 : NDImage)
    (now : EpicsTS) (junkColorMode : Int) : DrvState × PvFrame × List CbAct :=
  let pImage1 := { pImage0 with uniqueId := f.frameCount, epicsTS := now }
  let binX := s.params.adBinX
  let binY := s.params.adBinY
  let bp := if f.bayerPattern > ePvBayerBGGR then ePvBayerRGGB else f.bayerPattern
  let f1 := { f with bayerPattern := bp }
  let d := formatDispatch f1 pImage1 binX binY s.params.psBayerConvert
    s.allocCounter junkColorMode
  let pImage2 := d.1
  let colorMode := d.2.1
  let alloc2 := d.2.2.1
  let relActs := d.2.2.2
  let pImage3 := { pImage2 with
      attrs := pImage2.attrs ++ [("BayerPattern", (bp : Int)), ("ColorMode", colorMode)] }
  let tsr := frameTimestamp s.params.psTimestampType (nativeFrameTicks f1)
    s.timeStampFrequency s.lastSyncTime pImage3.epicsTS
  let pImage4 := { pImage3 with timeStamp := tsr.1 }
  let pImage5 := { pImage4 with attrs := pImage4.attrs ++ s.externAttrs }
  let deliverActs := if s.params.ndArrayCallbacks ≠ 0 then [CbAct.deliverImage pImage5] else []
  let fr1 := if s.framesRemaining > 0 then s.framesRemaining - 1 else s.framesRemaining
  let params1 :=
    if fr1 = 0 then
      { s.params with shutter := 0, adAcquire := 0, adStatus := ADStatusIdle }
    else s.params
  let params2 := { params1 with ndArrayCounter := params1.ndArrayCounter + 1 }
  let relOld := match s.pArrays0 with
    | some old => [CbAct.releaseImage old.bufId]
    | none => []
  let newImg := NDImage.alloc alloc2 [(s.sensorWidth : Int), (s.sensorHeight : Int)] NDInt8
  let f2 := { f1 with context1 := some newImg }
  ({ s with
      params := params2, framesRemaining := fr1, timeStampFrequency := tsr.2,
      pArrays0 := some pImage5, allocCounter := alloc2 + 1 },
   f2, relActs ++ deliverActs ++ relOld)

/-- Translation of `prosilica::frameCallback` (prosilica.cpp:468-838).  A
frame whose status is ePvErrCancelled returns immediately, before the lock is
taken and without touching any state or requeueing.  Otherwise the lock is
taken; a frame with a non-null bound image and success status runs the
success branch, and any other frame only increments the bad-frame counter.
Both paths then run the parameter callbacks, requeue the same descriptor and
release the lock.  `now` is the clock value `updateTimeStamp` stamps at
decode time; `junkColorMode` is the value of the uninitialised local
`colorMode` in branches that never assign it. -/
def frameCallback (s : DrvState) (f : PvFrame) (now : EpicsTS)
    (junkColorMode : Int) : CbResult :=
  if f.status = ePvErrCancelled then ⟨s, f, []⟩
  else
    let badFrame : DrvState × PvFrame × List CbAct :=
      ({ s with params :=
          { s.params with psBadFrameCounter := s.params.psBadFrameCounter + 1 } }, f, [])
    let core :=
      match f.context1 with
      | some pImage0 =>
        if f.status = ePvErrSuccess then frameSuccessPath s f pImage0 now junkColorMode
        else badFrame
      | none => badFrame
    ⟨core.1, core.2.1,
      [CbAct.lock] ++ core.2.2 ++ [CbAct.paramCallbacks, CbAct.requeueFrame, CbAct.unlock]⟩

/-! ## Acquisition start/stop: the ADAcquire arm of writeInt32
(prosilica.cpp:1570-1609) -/

/-- Slots touched by the ADAcquire command: the image-mode and count
parameters it reads, the frames-remaining member, and the acquire, status and
shutter slots it forces. -/
structure AcqState where
  imageMode : Int
  numImages : Int
  framesRemaining : Int
  adAcquire : Int
  adStatus : Int
  shutter : Int
deriving DecidableEq, Repr

/-- Observable actions of writeInt32, in program order. -/
inductive WAct
  | setParam (name : String) (v : Int)
  | setFramesRemaining (v : Int)
  | setShutter (v : Int)
  | runCommand (cmd : String)
deriving DecidableEq, Repr

/-- Translation of the ADAcquire arm of `prosilica::writeInt32`
(prosilica.cpp:1570-1609).  The function first mirrors the written value into
the parameter store; a nonzero value then sets framesRemaining from the
current image mode (single 1, multiple the configured count, continuous -1,
any other mode leaves it unchanged since the switch has no default), sets the
status parameter to acquiring, opens the shutter and only then issues the
AcquisitionStart command; a zero value sets idle, closes the shutter and
issues AcquisitionAbort.  The trailing readParameters refresh of writeInt32
does not write any of these slots and is modelled separately. -/
def writeInt32Acquire (s : AcqState) (value : Int) : AcqState × List WAct :=
  let s0 := { s with adAcquire := value }
  if value ≠ 0 then
    let fr :=
      if s0.imageMode = ADImageSingle then 1
      else if s0.imageMode = ADImageMultiple then s0.numImages
      else if s0.imageMode = ADImageContinuous then -1
      else s0.framesRemaining
    ({ s0 with framesRemaining := fr, adStatus := ADStatusAcquire, shutter := 1 },
     [WAct.setParam "ADAcquire" value, WAct.setFramesRemaining fr,
      WAct.setParam "ADStatus" ADStatusAcquire, WAct.setShutter 1,
      WAct.runCommand "AcquisitionStart"])
  else
    ({ s0 with adStatus := ADStatusIdle, shutter := 0 },
     [WAct.setParam "ADAcquire" value, WAct.setParam "ADStatus" ADStatusIdle,
      WAct.setShutter 0, WAct.runCommand "AcquisitionAbort"])

/-! ## Batch attribute refreshes: readStats (prosilica.cpp:946-1124) and
readParameters (prosilica.cpp:1126-1252) -/

/-- Enum mode string tables of the driver (prosilica.cpp:198-270). -/
def PSTriggerStartModes : List String :=
  ["Freerun", "SyncIn1", "SyncIn2", "SyncIn3", "SyncIn4", "FixedRate", "Software"]

/-- Trigger event mode strings. -/
def PSTriggerEventModes : List String :=
  ["EdgeRising", "EdgeFalling", "EdgeAny", "LevelHigh", "LevelLow"]

/-- Trigger overlap mode strings. -/
def PSTriggerOverlapModes : List String := ["Off", "PreviousFrame"]

/-- Sync output mode strings. -/
def PSSyncOutModes : List String :=
  ["GPO", "AcquisitionTriggerReady", "FrameTriggerReady", "FrameTrigger",
   "Exposing", "FrameReadout", "Imaging", "Acquiring", "SyncIn1", "SyncIn2",
   "SyncIn3", "SyncIn4", "Strobe1", "Strobe2", "Strobe3", "Strobe4"]

/-- Strobe mode strings. -/
def PSStrobeModes : List String :=
  ["AcquisitionTriggerReady", "FrameTriggerReady", "FrameTrigger", "Exposing",
   "FrameReadout", "Acquiring", "SyncIn1", "SyncIn2", "SyncIn3", "SyncIn4"]

/-- Exposure mode strings. -/
def PSExposureModes : List String := ["Manual", "AutoOnce", "Auto", "External"]

/-- Gain mode strings. -/
def PSGainModes : List String := ["Manual", "AutoOnce", "Auto"]

/-- The camera attribute plane (external PvApi attribute gateway), one
error/value pair of functions per attribute type.  A get call returns the
error code `xErr name`; only on success (0) does it overwrite the output
variable, with `xVal name`. -/
structure CamOracle where
  enumErr : String → Nat
  enumVal : String → String
  uintErr : String → Nat
  uintVal : String → Nat
  floatErr : String → Nat
  floatVal : String → ℚ
  strErr : String → Nat
  strVal : String → String

/-- Locals threaded through a batch refresh: the accumulated status, the
string buffer, the unsigned and float output variables (which keep their
previous contents when a get fails), and the attributes attempted so far. -/
structure BatchAcc where
  status : Nat
  buffer : String
  uval : Nat
  fval : ℚ
  attempted : List String
deriving Repr

/-- One `status |= PvAttrEnumGet(handle, name, buffer, ...)` line. -/
def enumGetStep (cam : CamOracle) (name : String) (a : BatchAcc) : BatchAcc :=
  let e := cam.enumErr name
  { a with status := a.status ||| e,
           buffer := if e = 0 then cam.enumVal name else a.buffer,
           attempted := a.attempted ++ [name] }

/-- One `status |= PvAttrStringGet(handle, name, buffer, ...)` line. -/
def strGetStep (cam : CamOracle) (name : String) (a : BatchAcc) : BatchAcc :=
  let e := cam.strErr name
  { a with status := a.status ||| e,
           buffer := if e = 0 then cam.strVal name else a.buffer,
           attempted := a.attempted ++ [name] }

/-- One `status |= PvAttrUint32Get(handle, name, &uval)` line. -/
def uintGetStep (cam : CamOracle) (name : String) (a : BatchAcc) : BatchAcc :=
  let e := cam.uintErr name
  { a with status := a.status ||| e,
           uval := if e = 0 then cam.uintVal name else a.uval,
           attempted := a.attempted ++ [name] }

/-- One `status |= PvAttrFloat32Get(handle, name, &fval)` line. -/
def floatGetStep (cam : CamOracle) (name : String) (a : BatchAcc) : BatchAcc :=
  let e := cam.floatErr name
  { a with status := a.status ||| e,
           fval := if e = 0 then cam.floatVal name else a.fval,
           attempted := a.attempted ++ [name] }

/-- The string-table scan pattern: find the buffer in the mode table and
mirror its index, else mirror 0 and accumulate asynError.  Returns the new
status and the mirrored slot value. -/
def enumSlot (modes : List String) (buffer : String) (status : Nat) : Nat × Nat :=
  match modes.findIdx? (fun m => m == buffer) with
  | some i => (status, i)
  | none => (status ||| asynError, 0)

/-- The Off/On scan pattern used for the invert and controlled-duration
enums: Off mirrors 0, On mirrors 1, anything else mirrors 0 and accumulates
asynError. -/
def invertSlot (buffer : String) (status : Nat) : Nat × Nat :=
  if buffer == "Off" then (status, 0)
  else if buffer == "On" then (status, 1)
  else (status ||| asynError, 0)

/-- Parameter-store slots written by readStats, every one of them set on
every call. -/
structure RSParams where
  driverType : String
  filterVersion : String
  frameRate : ℚ
  byteRate : Nat
  packetSize : Nat
  framesCompleted : Nat
  framesDropped : Nat
  packetsErroneous : Nat
  packetsMissed : Nat
  packetsReceived : Nat
  packetsRequested : Nat
  packetsResent : Nat
  syncIn1Level : Nat
  syncIn2Level : Nat
  syncOut1Level : Nat
  syncOut2Level : Nat
  syncOut3Level : Nat
  triggerDelay : ℚ
  triggerEvent : Nat
  triggerOverlap : Nat
  syncOut1Mode : Nat
  syncOut2Mode : Nat
  syncOut3Mode : Nat
  syncOut1Invert : Nat
  syncOut2Invert : Nat
  syncOut3Invert : Nat
  strobe1Mode : Nat
  strobe1CtlDuration : Nat
  strobe1Delay : ℚ
  strobe1Duration : ℚ
deriving DecidableEq, Repr

/-- Result of readStats: the internally accumulated status, the value the C
function returns (always asynSuccess, prosilica.cpp:1123), the parameter
store slots after the call and the attributes attempted, in order. -/
structure RSResult where
  status : Nat
  ret : Nat
  store : RSParams
  attempted : List String

/-- Translation of `prosilica::readStats` (prosilica.cpp:946-1124), a
straight-line batch of attribute reads with bitwise-OR status accumulation
and no early exit.  The two leading reads and the SyncOut3 pair tolerate
ePvErrNotFound by resetting the accumulated status exactly as the source
compares it (`status == ePvErrNotFound` on the accumulated value).  `buf0`,
`uval0` and `fval0` are the indeterminate initial contents of the local
output variables; `prev` is the parameter store before the call, which the
result provably ignores because every slot is rewritten. -/
def readStats (cam : CamOracle) (buf0 : String) (uval0 : Nat) (fval0 : ℚ)
    (prev : RSParams) : RSResult :=
  let a1 := enumGetStep cam "StatDriverType" ⟨asynSuccess, buf0, uval0, fval0, []⟩
  let a1b := { a1 with
      status := if a1.status = ePvErrNotFound then 0 else a1.status,
      buffer := if a1.status = ePvErrNotFound then "Unsupported parameter" else a1.buffer }
  let driverType := a1b.buffer
  let a2 := strGetStep cam "StatFilterVersion" a1b
  let a2b := { a2 with
      status := if a2.status = ePvErrNotFound then 0 else a2.status,
      buffer := if a2.status = ePvErrNotFound then "Unsupported parameter" else a2.buffer }
  let filterVersion := a2b.buffer
  let a3 := floatGetStep cam "StatFrameRate" a2b
  let a4 := uintGetStep cam "StreamBytesPerSecond" a3
  let byteRate := a4.uval
  let a5 := uintGetStep cam "PacketSize" a4
  let packetSize := a5.uval
  let a6 := uintGetStep cam "StatFramesCompleted" a5
  let framesCompleted := a6.uval
  let a7 := uintGetStep cam "StatFramesDropped" a6
  let framesDropped := a7.uval
  let a8 := uintGetStep cam "StatPacketsErroneous" a7
  let packetsErroneous := a8.uval
  let a9 := uintGetStep cam "StatPacketsMissed" a8
  let packetsMissed := a9.uval
  let a10 := uintGetStep cam "StatPacketsReceived" a9
  let packetsReceived := a10.uval
  let a11 := uintGetStep cam "StatPacketsRequested" a10
  let packetsRequested := a11.uval
  let a12 := uintGetStep cam "StatPacketsResent" a11
  let packetsResent := a12.uval
  let a13 := uintGetStep cam "SyncInLevels" a12
  let syncIn1Level := if a13.uval &&& 1 ≠ 0 then 1 else 0
  let syncIn2Level := if a13.uval &&& 2 ≠ 0 then 1 else 0
  let a14 := uintGetStep cam "SyncOutGpoLevels" a13
  let syncOut1Level := if a14.uval &&& 1 ≠ 0 then 1 else 0
  let syncOut2Level := if a14.uval &&& 2 ≠ 0 then 1 else 0
  let syncOut3Level := if a14.uval &&& 4 ≠ 0 then 1 else 0
  let a15 := uintGetStep cam "FrameStartTriggerDelay" a14
  let triggerDelay := (a15.uval : ℚ) / 1000000
  let a16 := enumGetStep cam "FrameStartTriggerEvent" a15
  let r16 := enumSlot PSTriggerEventModes a16.buffer a16.status
  let a16b := { a16 with status := r16.1 }
  let triggerEvent := r16.2
  let a17 := enumGetStep cam "FrameStartTriggerOverlap" a16b
  let r17 : Nat × Nat :=
    (if a17.status = ePvErrNotFound then 0
       else (enumSlot PSTriggerOverlapModes a17.buffer a17.status).1,
     if a17.status = ePvErrNotFound then 0
       else (enumSlot PSTriggerOverlapModes a17.buffer a17.status).2)
  let a17b := { a17 with status := r17.1 }
  let triggerOverlap := r17.2
  let a18 := enumGetStep cam "SyncOut1Mode" a17b
  let r18 := enumSlot PSSyncOutModes a18.buffer a18.status
  let a18b := { a18 with status := r18.1 }
  let a19 := enumGetStep cam "SyncOut2Mode" a18b
  let r19 := enumSlot PSSyncOutModes a19.buffer a19.status
  let a19b := { a19 with status := r19.1 }
  let a20 := enumGetStep cam "SyncOut3Mode" a19b
  let r20 : Nat × Nat :=
    (if a20.status = ePvErrNotFound then 0
       else (enumSlot PSSyncOutModes a20.buffer a20.status).1,
     if a20.status = ePvErrNotFound then 0
       else (enumSlot PSSyncOutModes a20.buffer a20.status).2)
  let a20b := { a20 with status := r20.1 }
  let a21 := enumGetStep cam "SyncOut1Invert" a20b
  let r21 := invertSlot a21.buffer a21.status
  let a21b := { a21 with status := r21.1 }
  let a22 := enumGetStep cam "SyncOut2Invert" a21b
  let r22 := invertSlot a22.buffer a22.status
  let a22b := { a22 with status := r22.1 }
  let a23 := enumGetStep cam "SyncOut3Invert" a22b
  let r23 : Nat × Nat :=
    (if a23.status = ePvErrNotFound then 0
       else (invertSlot a23.buffer a23.status).1,
     if a23.status = ePvErrNotFound then 0
       else (invertSlot a23.buffer a23.status).2)
  let a23b := { a23 with status := r23.1 }
  let a24 := enumGetStep cam "Strobe1Mode" a23b
  let r24 := enumSlot PSStrobeModes a24.buffer a24.status
  let a24b := { a24 with status := r24.1 }
  let a25 := enumGetStep cam "Strobe1ControlledDuration" a24b
  let r25 := invertSlot a25.buffer a25.status
  let a25b := { a25 with status := r25.1 }
  let a26 := uintGetStep cam "Strobe1Delay" a25b
  let strobe1Delay := (a26.uval : ℚ) / 1000000
  let a27 := uintGetStep cam "Strobe1Duration" a26
  let strobe1Duration := (a27.uval : ℚ) / 1000000
  { status := a27.status, ret := asynSuccess,
    store :=
      { driverType := driverType, filterVersion := filterVersion,
        frameRate := a3.fval, byteRate := byteRate, packetSize := packetSize,
        framesCompleted := framesCompleted, framesDropped := framesDropped,
        packetsErroneous := packetsErroneous, packetsMissed := packetsMissed,
        packetsReceived := packetsReceived, packetsRequested := packetsRequested,
        packetsResent := packetsResent, syncIn1Level := syncIn1Level,
        syncIn2Level := syncIn2Level, syncOut1Level := syncOut1Level,
        syncOut2Level := syncOut2Level, syncOut3Level := syncOut3Level,
        triggerDelay := triggerDelay, triggerEvent := triggerEvent,
        triggerOverlap := triggerOverlap, syncOut1Mode := r18.2,
        syncOut2Mode := r19.2, syncOut3Mode := r20.2, syncOut1Invert := r21.2,
        syncOut2Invert := r22.2, syncOut3Invert := r23.2, strobe1Mode := r24.2,
        strobe1CtlDuration := r25.2, strobe1Delay := strobe1Delay,
        strobe1Duration := strobe1Duration },
    attempted := a27.attempted }

/-- Uninitialised locals of getGeometry used when a region or size get
fails. -/
structure GeoJunk where
  minX : Nat
  minY : Nat
  sizeX : Nat
  sizeY : Nat

/-- Slots written by getGeometry inside readParameters. -/
structure GeoReadStore where
  binX : Nat
  binY : Nat
  minX : Nat
  minY : Nat
  sizeX : Nat
  sizeY : Nat
  arraySizeX : Nat
  arraySizeY : Nat
deriving DecidableEq, Repr

/-- Translation of `prosilica::getGeometry` (prosilica.cpp:913-944): binning
reads fall back to 1 on any error and tolerate ePvErrNotFound in the status;
region and size reads accumulate their errors and leave the output variables
indeterminate on failure; the mirrored offsets and sizes are scaled back to
unbinned units.  Returns the accumulated status, the slots written, and the
attributes attempted. -/
def getGeometry (cam : CamOracle) (j : GeoJunk) : Nat × GeoReadStore × List String :=
  let e1 := cam.uintErr "BinningX"
  let binX := if e1 ≠ 0 then 1 else cam.uintVal "BinningX"
  let status := if e1 = ePvErrNotFound then 0 else 0 ||| e1
  let e2 := cam.uintErr "BinningY"
  let binY := if e2 ≠ 0 then 1 else cam.uintVal "BinningY"
  let status := if e2 = ePvErrNotFound then status else status ||| e2
  let e3 := cam.uintErr "RegionX"
  let minX := if e3 = 0 then cam.uintVal "RegionX" else j.minX
  let e4 := cam.uintErr "RegionY"
  let minY := if e4 = 0 then cam.uintVal "RegionY" else j.minY
  let e5 := cam.uintErr "Width"
  let sizeX := if e5 = 0 then cam.uintVal "Width" else j.sizeX
  let e6 := cam.uintErr "Height"
  let sizeY := if e6 = 0 then cam.uintVal "Height" else j.sizeY
  (status ||| e3 ||| e4 ||| e5 ||| e6,
   { binX := binX, binY := binY, minX := minX * binX, minY := minY * binY,
     sizeX := sizeX * binX, sizeY := sizeY * binY,
     arraySizeX := sizeX, arraySizeY := sizeY },
   ["BinningX", "BinningY", "RegionX", "RegionY", "Width", "Height"])

/-- Parameter-store slots written by readParameters, every one of them set on
every call. -/
structure RPParams where
  arraySize : Nat
  dataType : Nat
  colorMode : Int
  geo : GeoReadStore
  numImages : Nat
  imageMode : Int
  triggerMode : Nat
  numExposures : Nat
  acquireTime : ℚ
  acquirePeriod : ℚ
  gain : ℚ
  exposureMode : Nat
  gainMode : Nat
deriving DecidableEq, Repr

/-- Result of readParameters: the accumulated status (which is also what the
C function returns), the slots after the call and the attributes
attempted. -/
structure RPResult where
  status : Nat
  store : RPParams
  attempted : List String

/-- Translation of `prosilica::readParameters` (prosilica.cpp:1126-1252):
another straight-line batch with bitwise-OR accumulation and no early exit.
An unrecognised PixelFormat only logs, leaving the defaults Mono/UInt8; an
unrecognised AcquisitionMode or mode-table string mirrors 0 and accumulates
asynError; a zero FrameRate is replaced by 1 before taking its inverse. -/
def readParameters (cam : CamOracle) (buf0 : String) (intVal0 : Nat)
    (fltVal0 : ℚ) (gj : GeoJunk) (prev : RPParams) : RPResult :=
  let a1 := uintGetStep cam "TotalBytesPerFrame" ⟨asynSuccess, buf0, intVal0, fltVal0, []⟩
  let arraySize := a1.uval
  let a2 := enumGetStep cam "PixelFormat" a1
  let dtcm : Nat × Int :=
    if a2.buffer == "Mono8" then (NDUInt8, NDColorModeMono)
    else if a2.buffer == "Mono16" then (NDUInt16, NDColorModeMono)
    else if a2.buffer == "Rgb24" then (NDUInt8, NDColorModeRGB1)
    else if a2.buffer == "Rgb48" then (NDUInt16, NDColorModeRGB1)
    else if a2.buffer == "Bayer8" then (NDUInt8, NDColorModeBayer)
    else if a2.buffer == "Bayer16" then (NDUInt16, NDColorModeBayer)
    else (NDUInt8, NDColorModeMono)
  let g := getGeometry cam gj
  let a3 := { a2 with status := a2.status ||| g.1,
                      attempted := a2.attempted ++ g.2.2 }
  let a4 := uintGetStep cam "AcquisitionFrameCount" a3
  let numImages := a4.uval
  let a5 := enumGetStep cam "AcquisitionMode" a4
  let im : Nat × Int :=
    if a5.buffer == "SingleFrame" then (a5.status, ADImageSingle)
    else if a5.buffer == "MultiFrame" then (a5.status, ADImageMultiple)
    else if a5.buffer == "Recorder" then (a5.status, ADImageMultiple)
    else if a5.buffer == "Continuous" then (a5.status, ADImageContinuous)
    else (a5.status ||| asynError, 0)
  let a5b := { a5 with status := im.1 }
  let a6 := enumGetStep cam "FrameStartTriggerMode" a5b
  let r6 := enumSlot PSTriggerStartModes a6.buffer a6.status
  let a6b := { a6 with status := r6.1 }
  let a7 := uintGetStep cam "ExposureValue" a6b
  let acquireTime := (a7.uval : ℚ) / 1000000
  let a8 := floatGetStep cam "FrameRate" a7
  let fltVal := if a8.fval = 0 then 1 else a8.fval
  let acquirePeriod := 1 / fltVal
  let a9 := uintGetStep cam "GainValue" a8
  let gain := (a9.uval : ℚ)
  let a10 := enumGetStep cam "ExposureMode" a9
  let r10 := enumSlot PSExposureModes a10.buffer a10.status
  let a10b := { a10 with status := r10.1 }
  let a11 := enumGetStep cam "GainMode" a10b
  let r11 := enumSlot PSGainModes a11.buffer a11.status
  { status := r11.1,
    store :=
      { arraySize := arraySize, dataType := dtcm.1, colorMode := dtcm.2,
        geo := g.2.1, numImages := numImages, imageMode := im.2,
        triggerMode := r6.2, numExposures := 1, acquireTime := acquireTime,
        acquirePeriod := acquirePeriod, gain := gain, exposureMode := r10.2,
        gainMode := r11.2 },
    attempted := a11.attempted }

/-! ## Shared concrete instances used by witnesses and counterexamples -/

/-- A vendor oracle whose calls all succeed. -/
def exVendor : VendorOracle := ⟨0, 0, 0, 0⟩

/-- A connected session with two of three descriptors bound. -/
def exSession : SessionState := ⟨true, some 5, [some 1, none, some 2]⟩

/-- A maximum-size image buffer as bound by connectCamera. -/
def exImg : NDImage := NDImage.alloc 0 [4, 4] NDInt8

/-- Parameter mirror for the callback examples: no binning, no Bayer
conversion, native-ticks timestamps, consumer callbacks enabled, mid-run
counters. -/
def exCbParams : CbParams :=
  { adBinX := 1, adBinY := 1, psBayerConvert := 0, psTimestampType := 0,
    ndArrayCallbacks := 1, psBadFrameCounter := 3, ndArrayCounter := 7,
    adAcquire := 1, adStatus := 1, shutter := 1 }

/-- Driver state for the callback examples: continuous acquisition, a 4 by 4
sensor, no retained image yet. -/
def exDrvState : DrvState :=
  { params := exCbParams, framesRemaining := -1, timeStampFrequency := 1000,
    lastSyncTime := ⟨50, 0⟩, pArrays0 := none, sensorWidth := 4,
    sensorHeight := 4, maxFrameSize := 48, allocCounter := 10, externAttrs := [] }

/-- A successful mono8 frame completion bound to `exImg`. -/
def exFrame : PvFrame :=
  { status := ePvErrSuccess, format := PvFmt.mono8, width := 4, height := 4,
    regionX := 0, regionY := 0, bayerPattern := 1, frameCount := 2,
    timestampLo := 7, timestampHi := 1, context1 := some exImg }

/-- The same completion reported with a data-lost failure status. -/
def exFrameFail : PvFrame := { exFrame with status := 16 }

/-- The same completion reporting an unsupported pixel format. -/
def exFrameOther : PvFrame := { exFrame with format := PvFmt.other 7 }

/-- The same completion reporting a Bayer8 format. -/
def exFrameBayer : PvFrame := { exFrame with format := PvFmt.bayer8 }

/-- Driver state selecting Bayer conversion and the IOC timestamp mode. -/
def exDrvIOC : DrvState :=
  { exDrvState with params := { exCbParams with
      psBayerConvert := PSBayerConvertRGB1, psTimestampType := PSTimestampTypeIOC } }

/-- Test for a delivery action in a callback trace. -/
def CbAct.isDeliver : CbAct → Bool
  | CbAct.deliverImage _ => true
  | _ => false

/-- Whether the format dispatch replaces the image buffer: exactly the Bayer
formats with a conversion mode selected. -/
def bayerConverting (fmt : PvFmt) (conv : Int) : Bool :=
  match fmt with
  | PvFmt.bayer8 => if conv = PSBayerConvertNone then false else true
  | PvFmt.bayer16 => if conv = PSBayerConvertNone then false else true
  | _ => false

/-! ## Frame-callback branch lemmas -/

/-- On a non-cancelled completion with a bound buffer and success status,
frameCallback is the success branch wrapped in lock, parameter callbacks,
requeue and unlock. -/
theorem frameCallback_success_eq (s : DrvState) (f : PvFrame) (img : NDImage)
    (now : EpicsTS) (junk : Int)
    (hst : f.status = ePvErrSuccess) (hctx : f.context1 = some img) :
    frameCallback s f now junk =
      ⟨(frameSuccessPath s f img now junk).1,
       (frameSuccessPath s f img now junk).2.1,
       [CbAct.lock] ++ (frameSuccessPath s f img now junk).2.2 ++
         [CbAct.paramCallbacks, CbAct.requeueFrame, CbAct.unlock]⟩ := by
  unfold frameCallback
  rw [hctx, hst]
  simp [ePvErrSuccess, ePvErrCancelled]

/-- On a non-cancelled completion whose buffer is null or whose status is not
success, frameCallback only increments the bad-frame counter, then runs the
parameter callbacks and requeues the untouched descriptor. -/
theorem frameCallback_failure_eq (s : DrvState) (f : PvFrame)
    (now : EpicsTS) (junk : Int)
    (hcan : f.status ≠ ePvErrCancelled)
    (hfail : f.context1 = none ∨ f.status ≠ ePvErrSuccess) :
    frameCallback s f now junk =
      ⟨{ s with params :=
          { s.params with psBadFrameCounter := s.params.psBadFrameCounter + 1 } },
       f, [CbAct.lock, CbAct.paramCallbacks, CbAct.requeueFrame, CbAct.unlock]⟩ := by
  unfold frameCallback
  rw [if_neg hcan]
  rcases hfail with hnone | hst
  · rw [hnone]
    rfl
  · cases hc : f.context1 with
    | none => rfl
    | some i =>
      simp only [if_neg hst]
      rfl

/-- The format dispatch never hands back a smaller allocation counter. -/
theorem formatDispatch_alloc_mono (f : PvFrame) (img1 : NDImage)
    (bx byn conv : Int) (ac : Nat) (junk : Int) :
    ac ≤ (formatDispatch f img1 bx byn conv ac junk).2.2.1 := by
  cases hf : f.format <;>
    simp only [formatDispatch, bayerConvertArm, hf] <;>
    (try split) <;> simp

/-- The epicsTS carried by the dispatched image: the incoming image keeps its
stamp except on the Bayer-conversion arms, where the freshly allocated
replacement carries the fresh-state stamp. -/
theorem formatDispatch_epicsTS (f : PvFrame) (img1 : NDImage)
    (bx byn conv : Int) (ac : Nat) (junk : Int) :
    (formatDispatch f img1 bx byn conv ac junk).1.epicsTS =
      (if bayerConverting f.format conv then ⟨0, 0⟩ else img1.epicsTS) := by
  cases hf : f.format
  case bayer8 =>
    simp only [formatDispatch, bayerConvertArm, bayerConverting, NDImage.alloc,
      hf, PSBayerConvertNone, PSBayerConvertRGB1, PSBayerConvertRGB2,
      PSBayerConvertRGB3]
    by_cases hc : conv = 0
    · simp [hc]
    · by_cases h1 : conv = 1
      · simp [hc, h1]
      · by_cases h2 : conv = 2
        · simp [hc, h1, h2]
        · by_cases h3 : conv = 3 <;> simp [hc, h1, h2, h3]
  case bayer16 =>
    simp only [formatDispatch, bayerConvertArm, bayerConverting, NDImage.alloc,
      hf, PSBayerConvertNone, PSBayerConvertRGB1, PSBayerConvertRGB2,
      PSBayerConvertRGB3]
    by_cases hc : conv = 0
    · simp [hc]
    · by_cases h1 : conv = 1
      · simp [hc, h1]
      · by_cases h2 : conv = 2
        · simp [hc, h1, h2]
        · by_cases h3 : conv = 3 <;> simp [hc, h1, h2, h3]
  all_goals simp [formatDispatch, bayerConverting, hf]

/-! ## Supporting lemmas -/

/-- With every re-poll still denying master access, the access-wait loop runs
until the retry break fires, executing sleep/re-poll iterations up to exactly
CONNECT_RETRY_COUNT. -/
theorem accessWaitGo_denied (poll : Nat → Option Bool)
    (h : ∀ i, poll i = some false) :
    ∀ fuel p, p + fuel = CONNECT_RETRY_COUNT → 1 ≤ fuel →
      accessWaitGo poll fuel p false =
        AccessPhase.exitLoop CONNECT_RETRY_COUNT false := by
  intro fuel
  induction fuel with
  | zero => intro p _ h1; omega
  | succ f ih =>
    intro p hpf _
    rw [accessWaitGo, h (p + 1)]
    by_cases hc : CONNECT_RETRY_COUNT ≤ p + 1
    · have hp : p + 1 = CONNECT_RETRY_COUNT := by omega
      simp [hc, hp]
    · have hf : 1 ≤ f := by omega
      simp only [hc, if_false]
      exact ih (p + 1) (by omega) hf

/-- disconnectCamera always leaves the handle null when PvApi is
initialised. -/
theorem disconnectCamera_handle (v : VendorOracle) (s : SessionState)
    (hinit : s.pvApiInitialized = true) :
    (disconnectCamera v s).2.1.pvHandle = none := by
  unfold disconnectCamera
  rw [hinit]
  by_cases h : s.pvHandle = none <;> simp [h]

/-! ## Claim theorems -/

/-- State summary of the success branch: framesRemaining decremented only
when positive, the shutter/acquire/status parameters forced exactly when the
counter lands on zero, the bad-frame counter untouched, the array counter
incremented, and a retained image present. -/
theorem frameSuccessPath_state (s : DrvState) (f : PvFrame) (img : NDImage)
    (now : EpicsTS) (junk : Int) :
    (frameSuccessPath s f img now junk).1.framesRemaining =
      (if s.framesRemaining > 0 then s.framesRemaining - 1
       else s.framesRemaining) ∧
    (frameSuccessPath s f img now junk).1.params.shutter =
      (if (if s.framesRemaining > 0 then s.framesRemaining - 1
           else s.framesRemaining) = 0 then 0 else s.params.shutter) ∧
    (frameSuccessPath s f img now junk).1.params.adAcquire =
      (if (if s.framesRemaining > 0 then s.framesRemaining - 1
           else s.framesRemaining) = 0 then 0 else s.params.adAcquire) ∧
    (frameSuccessPath s f img now junk).1.params.adStatus =
      (if (if s.framesRemaining > 0 then s.framesRemaining - 1
           else s.framesRemaining) = 0 then ADStatusIdle
       else s.params.adStatus) ∧
    (frameSuccessPath s f img now junk).1.params.psBadFrameCounter =
      s.params.psBadFrameCounter ∧
    (frameSuccessPath s f img now junk).1.params.ndArrayCounter =
      s.params.ndArrayCounter + 1 ∧
    (frameSuccessPath s f img now junk).1.pArrays0.isSome = true := by
  refine ⟨?_, ?_, ?_, ?_, ?_, ?_, ?_⟩ <;>
    simp only [frameSuccessPath] <;>
    (repeat' split) <;> rfl

/-- C2: if device master access remains denied on every poll, connectCamera
sleeps a fixed interval between polls, executes exactly CONNECT_RETRY_COUNT
(30) sleep/re-poll retry iterations, and then returns the access-denied
failure, leaving the camera handle null (disconnected). -/
theorem connectCamera_access_denied_retry_bound (v : VendorOracle)
    (poll : Nat → Option Bool) (s : SessionState)
    (hinit : s.pvApiInitialized = true)
    (hdenied : ∀ i, poll i = some false) :
    (connectCameraAccessPhase v poll false s).1 = asynError ∧
    (connectCameraAccessPhase v poll false s).2.2 = CONNECT_RETRY_COUNT ∧
    (connectCameraAccessPhase v poll false s).2.1.pvHandle = none := by
  have hloop := accessWaitGo_denied poll hdenied CONNECT_RETRY_COUNT 0
    (by omega) (by decide)
  have hhandle := disconnectCamera_handle v s hinit
  unfold connectCameraAccessPhase
  rw [hinit, hloop]
  simp [hhandle]

/-- C2 witness: a concrete all-denying camera exercises the retry bound. -/
theorem connectCamera_access_denied_retry_bound_witness :
    exSession.pvApiInitialized = true ∧
    ((connectCameraAccessPhase exVendor (fun _ => some false) false exSession).1
        = asynError ∧
     (connectCameraAccessPhase exVendor (fun _ => some false) false exSession).2.2
        = CONNECT_RETRY_COUNT ∧
     (connectCameraAccessPhase exVendor (fun _ => some false) false
        exSession).2.1.pvHandle = none) :=
  ⟨rfl, connectCamera_access_denied_retry_bound exVendor (fun _ => some false)
    exSession rfl (fun _ => rfl)⟩

/-- C3: setGeometry clamps each axis whose requested offset plus size
exceeds the sensor maximum to (maximum minus offset) and writes the clamped
size back, so the parameter store read-back shows the clamped value and
every other geometry slot is unchanged. -/
theorem setGeometry_clamp_readback (setErr : String → Nat) (p : GeoStore) :
    (setGeometry setErr p).2.1 =
      { p with
          sizeX := if p.minX + p.sizeX > p.maxSizeX then p.maxSizeX - p.minX
            else p.sizeX,
          sizeY := if p.minY + p.sizeY > p.maxSizeY then p.maxSizeY - p.minY
            else p.sizeY } := by
  simp only [setGeometry]
  rw [apply_ite (fun x : Nat × GeoStore × List GeoSet => x.2.1)]
  simp

/-- C6: from a connected session, disconnectCamera nulls the handle,
releases every bound descriptor buffer and clears its pointer, and a second
disconnectCamera call is a pure no-op that returns success. -/
theorem disconnectCamera_idempotent (v v2 : VendorOracle) (s : SessionState)
    (hinit : s.pvApiInitialized = true) (hconn : s.pvHandle ≠ none) :
    (disconnectCamera v s).2.1.pvHandle = none ∧
    (disconnectCamera v s).2.1.frames = s.frames.map (fun _ => none) ∧
    (disconnectCamera v s).2.2 =
      [DAct.unlock, DAct.vendorQueueClear, DAct.vendorCaptureEnd,
       DAct.vendorCameraClose, DAct.lock] ++
        (s.frames.filterMap id).map DAct.releaseImage ∧
    disconnectCamera v2 (disconnectCamera v s).2.1 =
      (asynSuccess, (disconnectCamera v s).2.1, []) := by
  unfold disconnectCamera
  rw [hinit]
  simp [hconn]

/-- C6 witness: concrete double disconnect from a connected session. -/
theorem disconnectCamera_idempotent_witness :
    exSession.pvApiInitialized = true ∧ exSession.pvHandle ≠ none ∧
    ((disconnectCamera exVendor exSession).2.1.pvHandle = none ∧
     (disconnectCamera exVendor exSession).2.1.frames =
       exSession.frames.map (fun _ => none) ∧
     (disconnectCamera exVendor exSession).2.2 =
       [DAct.unlock, DAct.vendorQueueClear, DAct.vendorCaptureEnd,
        DAct.vendorCameraClose, DAct.lock] ++
         (exSession.frames.filterMap id).map DAct.releaseImage ∧
     disconnectCamera exVendor (disconnectCamera exVendor exSession).2.1 =
       (asynSuccess, (disconnectCamera exVendor exSession).2.1, [])) :=
  ⟨rfl, by decide,
    disconnectCamera_idempotent exVendor exVendor exSession rfl (by decide)⟩

/-- C10: a frame completion whose status is marked cancelled makes the frame
callback return immediately: the action trace is empty (no lock taken, no
requeue), the driver state is untouched, and the descriptor is untouched. -/
theorem frameCallback_cancelled_noop (s : DrvState) (f : PvFrame)
    (now : EpicsTS) (junk : Int) (h : f.status = ePvErrCancelled) :
    frameCallback s f now junk = ⟨s, f, []⟩ := by
  unfold frameCallback
  rw [h]
  simp

/-- C10 witness: a concrete cancelled completion. -/
theorem frameCallback_cancelled_noop_witness :
    ({ exFrame with status := ePvErrCancelled } : PvFrame).status
        = ePvErrCancelled ∧
    frameCallback exDrvState { exFrame with status := ePvErrCancelled }
        ⟨60, 0⟩ 0 =
      ⟨exDrvState, { exFrame with status := ePvErrCancelled }, []⟩ :=
  ⟨rfl, frameCallback_cancelled_noop exDrvState
    { exFrame with status := ePvErrCancelled } ⟨60, 0⟩ 0 rfl⟩

/-- C5: starting acquisition mirrors the written value, sets the
frames-remaining counter to 1 in single mode, the configured count in
multiple mode and -1 in continuous mode, forces the status parameter and
shutter, and only then issues the hardware start command; thereafter every
successfully decoded frame decrements the counter when it is positive, and
the shutter is cleared, acquisition set inactive and status set idle exactly
when the counter lands on zero, so a negative (continuous) counter never
auto-stops. -/
theorem acquisition_frame_counting (sa : AcqState) (v : Int)
    (s : DrvState) (f : PvFrame) (img : NDImage) (now : EpicsTS) (junk : Int)
    (hv : v ≠ 0) (hst : f.status = ePvErrSuccess) (hctx : f.context1 = some img) :
    (writeInt32Acquire sa v =
      ({ sa with
          adAcquire := v,
          framesRemaining :=
            if sa.imageMode = ADImageSingle then 1
            else if sa.imageMode = ADImageMultiple then sa.numImages
            else if sa.imageMode = ADImageContinuous then -1
            else sa.framesRemaining,
          adStatus := ADStatusAcquire, shutter := 1 },
       [WAct.setParam "ADAcquire" v,
        WAct.setFramesRemaining
          (if sa.imageMode = ADImageSingle then 1
           else if sa.imageMode = ADImageMultiple then sa.numImages
           else if sa.imageMode = ADImageContinuous then -1
           else sa.framesRemaining),
        WAct.setParam "ADStatus" ADStatusAcquire, WAct.setShutter 1,
        WAct.runCommand "AcquisitionStart"])) ∧
    (frameCallback s f now junk).state.framesRemaining =
      (if s.framesRemaining > 0 then s.framesRemaining - 1
       else s.framesRemaining) ∧
    ((if s.framesRemaining > 0 then s.framesRemaining - 1
      else s.framesRemaining) = 0 →
      (frameCallback s f now junk).state.params.shutter = 0 ∧
      (frameCallback s f now junk).state.params.adAcquire = 0 ∧
      (frameCallback s f now junk).state.params.adStatus = ADStatusIdle) ∧
    ((if s.framesRemaining > 0 then s.framesRemaining - 1
      else s.framesRemaining) ≠ 0 →
      (frameCallback s f now junk).state.params.shutter = s.params.shutter ∧
      (frameCallback s f now junk).state.params.adAcquire = s.params.adAcquire ∧
      (frameCallback s f now junk).state.params.adStatus = s.params.adStatus) := by
  have hs := frameCallback_success_eq s f img now junk hst hctx
  have hp := frameSuccessPath_state s f img now junk
  rw [hs]
  refine ⟨?_, hp.1, fun h => ?_, fun h => ?_⟩
  · unfold writeInt32Acquire
    rw [if_pos hv]
  · exact ⟨hp.2.1.trans (if_pos h), hp.2.2.1.trans (if_pos h),
      hp.2.2.2.1.trans (if_pos h)⟩
  · exact ⟨hp.2.1.trans (if_neg h), hp.2.2.1.trans (if_neg h),
      hp.2.2.2.1.trans (if_neg h)⟩

/-- C5 witness: multiple mode with count 3, and a decoded frame that takes a
counter of 1 to 0 and stops acquisition. -/
theorem acquisition_frame_counting_witness :
    (1 : Int) ≠ 0 ∧ exFrame.status = ePvErrSuccess ∧
    exFrame.context1 = some exImg ∧
    (writeInt32Acquire ⟨ADImageMultiple, 3, 0, 0, 0, 0⟩ 1 =
      ({ (⟨ADImageMultiple, 3, 0, 0, 0, 0⟩ : AcqState) with
          adAcquire := 1, framesRemaining := 3,
          adStatus := ADStatusAcquire, shutter := 1 },
       [WAct.setParam "ADAcquire" 1, WAct.setFramesRemaining 3,
        WAct.setParam "ADStatus" ADStatusAcquire, WAct.setShutter 1,
        WAct.runCommand "AcquisitionStart"]) ∧
     (frameCallback { exDrvState with framesRemaining := 1 } exFrame
        ⟨60, 0⟩ 0).state.framesRemaining = 0 ∧
     (frameCallback { exDrvState with framesRemaining := 1 } exFrame
        ⟨60, 0⟩ 0).state.params.shutter = 0 ∧
     (frameCallback { exDrvState with framesRemaining := 1 } exFrame
        ⟨60, 0⟩ 0).state.params.adAcquire = 0 ∧
     (frameCallback { exDrvState with framesRemaining := 1 } exFrame
        ⟨60, 0⟩ 0).state.params.adStatus = ADStatusIdle) := by
  have h := acquisition_frame_counting ⟨ADImageMultiple, 3, 0, 0, 0, 0⟩ 1
    { exDrvState with framesRemaining := 1 } exFrame exImg ⟨60, 0⟩ 0
    (by decide) rfl rfl
  refine ⟨by decide, rfl, rfl, ?_, ?_, ?_⟩
  · have := h.1
    simpa using this
  · simpa using h.2.1
  · exact ⟨(h.2.2.1 (by decide)).1, (h.2.2.1 (by decide)).2.1,
      (h.2.2.1 (by decide)).2.2⟩

/-- C8: every canonical image produced by a successful decode carries a
BayerPattern attribute equal to the sensor-reported pattern, replaced by the
fixed default when it lies outside the 4-value enumeration, so the attached
value is always within the valid enumeration. -/
theorem frameCallback_bayer_pattern_clamped (s : DrvState) (f : PvFrame)
    (img retained : NDImage) (now : EpicsTS) (junk : Int)
    (hst : f.status = ePvErrSuccess) (hctx : f.context1 = some img)
    (hret : (frameCallback s f now junk).state.pArrays0 = some retained) :
    ("BayerPattern",
      (((if f.bayerPattern > ePvBayerBGGR then ePvBayerRGGB
         else f.bayerPattern) : Nat) : Int)) ∈ retained.attrs ∧
    (if f.bayerPattern > ePvBayerBGGR then ePvBayerRGGB else f.bayerPattern)
      ≤ ePvBayerBGGR := by
  rw [frameCallback_success_eq s f img now junk hst hctx] at hret
  simp only [frameSuccessPath, Option.some.injEq] at hret
  constructor
  · subst hret
    simp [List.mem_append]
  · unfold ePvBayerRGGB ePvBayerBGGR
    split <;> omega

/-- C8 witness: a concrete frame reporting the invalid pattern 9 gets the
default pattern 0 attached. -/
theorem frameCallback_bayer_pattern_clamped_witness :
    ({ exFrame with bayerPattern := 9 } : PvFrame).status = ePvErrSuccess ∧
    ({ exFrame with bayerPattern := 9 } : PvFrame).context1 = some exImg ∧
    (("BayerPattern",
        (((if ({ exFrame with bayerPattern := 9 } : PvFrame).bayerPattern >
              ePvBayerBGGR then ePvBayerRGGB
           else ({ exFrame with bayerPattern := 9 } : PvFrame).bayerPattern) :
            Nat) : Int)) ∈
        ((frameCallback exDrvState { exFrame with bayerPattern := 9 }
          ⟨60, 0⟩ 0).state.pArrays0.getD exImg).attrs ∧
     (if ({ exFrame with bayerPattern := 9 } : PvFrame).bayerPattern >
          ePvBayerBGGR then ePvBayerRGGB
      else ({ exFrame with bayerPattern := 9 } : PvFrame).bayerPattern)
        ≤ ePvBayerBGGR) := by
  refine ⟨rfl, rfl, ?_⟩
  have hsome : (frameCallback exDrvState { exFrame with bayerPattern := 9 }
      ⟨60, 0⟩ 0).state.pArrays0.isSome = true := by
    rw [frameCallback_success_eq exDrvState { exFrame with bayerPattern := 9 }
      exImg ⟨60, 0⟩ 0 rfl rfl]
    exact (frameSuccessPath_state exDrvState
      { exFrame with bayerPattern := 9 } exImg ⟨60, 0⟩ 0).2.2.2.2.2.2
  have hret : (frameCallback exDrvState { exFrame with bayerPattern := 9 }
      ⟨60, 0⟩ 0).state.pArrays0 =
      some ((frameCallback exDrvState { exFrame with bayerPattern := 9 }
        ⟨60, 0⟩ 0).state.pArrays0.getD exImg) := by
    obtain ⟨x, hx⟩ := Option.isSome_iff_exists.mp hsome
    rw [hx]
    rfl
  exact frameCallback_bayer_pattern_clamped exDrvState
    { exFrame with bayerPattern := 9 } exImg
    ((frameCallback exDrvState { exFrame with bayerPattern := 9 }
      ⟨60, 0⟩ 0).state.pArrays0.getD exImg) ⟨60, 0⟩ 0 rfl rfl hret

/-- C7 counterexample: a failed, not cancelled completion is requeued with
its existing buffer: the descriptor is unchanged, nothing is allocated, yet
the requeue still happens — contradicting the claim that the failure path
also binds a freshly allocated buffer before requeueing. -/
theorem frameCallback_failure_requeues_same_buffer :
    (frameCallback exDrvState exFrameFail ⟨60, 0⟩ 0).frame = exFrameFail ∧
    (frameCallback exDrvState exFrameFail ⟨60, 0⟩ 0).frame.context1 =
      some exImg ∧
    (frameCallback exDrvState exFrameFail ⟨60, 0⟩ 0).state.allocCounter =
      exDrvState.allocCounter ∧
    CbAct.requeueFrame ∈ (frameCallback exDrvState exFrameFail ⟨60, 0⟩ 0).trace := by
  refine ⟨?_, ?_, ?_, ?_⟩ <;> decide

/-- C7 (amended): every non-cancelled completion requeues the same
descriptor before returning; a freshly allocated maximum-size buffer is
bound to it only on the processed (success) path, while a failed completion
keeps its existing buffer and allocates nothing. -/
theorem frameCallback_requeue_rebind (s : DrvState) (f : PvFrame)
    (now : EpicsTS) (junk : Int) (hcan : f.status ≠ ePvErrCancelled) :
    CbAct.requeueFrame ∈ (frameCallback s f now junk).trace ∧
    (∀ img, f.context1 = some img → f.status = ePvErrSuccess →
      ∃ k, s.allocCounter ≤ k ∧
        (frameCallback s f now junk).frame.context1 =
          some (NDImage.alloc k [(s.sensorWidth : Int), (s.sensorHeight : Int)]
            NDInt8)) ∧
    ((f.context1 = none ∨ f.status ≠ ePvErrSuccess) →
      (frameCallback s f now junk).frame = f ∧
      (frameCallback s f now junk).state.allocCounter = s.allocCounter) := by
  refine ⟨?_, ?_, ?_⟩
  · unfold frameCallback
    rw [if_neg hcan]
    simp [List.mem_append]
  · intro img hctx hstE
    rw [frameCallback_success_eq s f img now junk hstE hctx]
    refine ⟨_, ?_, rfl⟩
    exact formatDispatch_alloc_mono _ _ _ _ _ _ _
  · intro hfail
    rw [frameCallback_failure_eq s f now junk hcan hfail]
    exact ⟨rfl, rfl⟩

/-- C7 witness: a concrete successful completion is requeued with a fresh
buffer, while the failure case of the same theorem keeps the old one. -/
theorem frameCallback_requeue_rebind_witness :
    exFrame.status ≠ ePvErrCancelled ∧
    (CbAct.requeueFrame ∈ (frameCallback exDrvState exFrame ⟨60, 0⟩ 0).trace ∧
     (∀ img, exFrame.context1 = some img → exFrame.status = ePvErrSuccess →
       ∃ k, exDrvState.allocCounter ≤ k ∧
         (frameCallback exDrvState exFrame ⟨60, 0⟩ 0).frame.context1 =
           some (NDImage.alloc k
             [(exDrvState.sensorWidth : Int), (exDrvState.sensorHeight : Int)]
             NDInt8)) ∧
     ((exFrame.context1 = none ∨ exFrame.status ≠ ePvErrSuccess) →
       (frameCallback exDrvState exFrame ⟨60, 0⟩ 0).frame = exFrame ∧
       (frameCallback exDrvState exFrame ⟨60, 0⟩ 0).state.allocCounter =
         exDrvState.allocCounter)) :=
  ⟨by decide, frameCallback_requeue_rebind exDrvState exFrame ⟨60, 0⟩ 0 (by decide)⟩

/-- C1 counterexample: a completed frame with success status and an
unsupported pixel format is not dropped: the bad-frame counter stays
unchanged, the retained last good image changes, an image is delivered to
the consumer, and the frame counter advances — contradicting each part of
the claim. -/
theorem frameCallback_unsupported_not_dropped :
    (frameCallback exDrvState exFrameOther ⟨60, 0⟩ 0).state.params.psBadFrameCounter
      = exDrvState.params.psBadFrameCounter ∧
    (frameCallback exDrvState exFrameOther ⟨60, 0⟩ 0).state.pArrays0 ≠
      exDrvState.pArrays0 ∧
    (frameCallback exDrvState exFrameOther ⟨60, 0⟩ 0).trace.any CbAct.isDeliver
      = true ∧
    (frameCallback exDrvState exFrameOther ⟨60, 0⟩ 0).state.params.ndArrayCounter
      = exDrvState.params.ndArrayCounter + 1 := by
  refine ⟨?_, ?_, ?_, ?_⟩ <;> decide

/-- C1 (amended): the decoder drops only failed completions, not
unsupported formats.  A frame with success status and a bound buffer whose
format is unsupported is processed like any other: the bad-frame counter is
unchanged, the frame counter advances, an image is retained, and it is
delivered whenever consumer callbacks are enabled.  The bad-frame counter
increments by exactly 1, with no delivery and the retained image unchanged,
exactly for non-cancelled completions whose status is not success or whose
bound buffer is null. -/
theorem frameCallback_unsupported_amended (s : DrvState) (f g : PvFrame)
    (img : NDImage) (now : EpicsTS) (junk : Int) (c : Nat)
    (hst : f.status = ePvErrSuccess) (hctx : f.context1 = some img)
    (hfmt : f.format = PvFmt.other c)
    (hgcan : g.status ≠ ePvErrCancelled)
    (hgfail : g.context1 = none ∨ g.status ≠ ePvErrSuccess) :
    (frameCallback s f now junk).state.params.psBadFrameCounter =
      s.params.psBadFrameCounter ∧
    (frameCallback s f now junk).state.params.ndArrayCounter =
      s.params.ndArrayCounter + 1 ∧
    (frameCallback s f now junk).state.pArrays0.isSome = true ∧
    (s.params.ndArrayCallbacks ≠ 0 →
      (frameCallback s f now junk).trace.any CbAct.isDeliver = true) ∧
    (frameCallback s g now junk).state.params.psBadFrameCounter =
      s.params.psBadFrameCounter + 1 ∧
    (frameCallback s g now junk).state.pArrays0 = s.pArrays0 ∧
    (frameCallback s g now junk).trace =
      [CbAct.lock, CbAct.paramCallbacks, CbAct.requeueFrame, CbAct.unlock] := by
  have hp := frameSuccessPath_state s f img now junk
  have hs := frameCallback_success_eq s f img now junk hst hctx
  have hg := frameCallback_failure_eq s g now junk hgcan hgfail
  refine ⟨?_, ?_, ?_, ?_, ?_, ?_, ?_⟩
  · rw [hs]; exact hp.2.2.2.2.1
  · rw [hs]; exact hp.2.2.2.2.2.1
  · rw [hs]; exact hp.2.2.2.2.2.2
  · intro hcb
    rw [hs]
    simp only [frameSuccessPath]
    rw [if_pos hcb]
    simp [List.any_append, CbAct.isDeliver]
  · rw [hg]
  · rw [hg]
  · rw [hg]

/-- C1 witness for the amended claim: a concrete unsupported-format success
frame and a concrete failed frame. -/
theorem frameCallback_unsupported_amended_witness :
    exFrameOther.status = ePvErrSuccess ∧
    exFrameOther.context1 = some exImg ∧
    exFrameOther.format = PvFmt.other 7 ∧
    exFrameFail.status ≠ ePvErrCancelled ∧
    (exFrameFail.context1 = none ∨ exFrameFail.status ≠ ePvErrSuccess) ∧
    ((frameCallback exDrvState exFrameOther ⟨60, 0⟩ 0).state.params.psBadFrameCounter =
       exDrvState.params.psBadFrameCounter ∧
     (frameCallback exDrvState exFrameOther ⟨60, 0⟩ 0).state.params.ndArrayCounter =
       exDrvState.params.ndArrayCounter + 1 ∧
     (frameCallback exDrvState exFrameOther ⟨60, 0⟩ 0).state.pArrays0.isSome = true ∧
     (exDrvState.params.ndArrayCallbacks ≠ 0 →
       (frameCallback exDrvState exFrameOther ⟨60, 0⟩ 0).trace.any CbAct.isDeliver
         = true) ∧
     (frameCallback exDrvState exFrameFail ⟨60, 0⟩ 0).state.params.psBadFrameCounter =
       exDrvState.params.psBadFrameCounter + 1 ∧
     (frameCallback exDrvState exFrameFail ⟨60, 0⟩ 0).state.pArrays0 =
       exDrvState.pArrays0 ∧
     (frameCallback exDrvState exFrameFail ⟨60, 0⟩ 0).trace =
       [CbAct.lock, CbAct.paramCallbacks, CbAct.requeueFrame, CbAct.unlock]) :=
  ⟨rfl, rfl, rfl, by decide, Or.inr (by decide),
    frameCallback_unsupported_amended exDrvState exFrameOther exFrameFail exImg
      ⟨60, 0⟩ 0 7 rfl rfl rfl (by decide) (Or.inr (by decide))⟩

/-- C4 counterexample: in the IOC timestamp mode, a Bayer frame decoded with
conversion enabled carries the stamp of the freshly allocated replacement
image, not the decode-time wall clock: with the decode clock at 100 seconds
the delivered timestamp is 0. -/
theorem frameCallback_timestamp_IOC_bayer_counterexample :
    (frameCallback exDrvIOC exFrameBayer ⟨100, 0⟩ 0).state.pArrays0.map
        NDImage.timeStamp = some 0 ∧
    EpicsTS.toQ ⟨100, 0⟩ = 100 ∧ ((0 : ℚ) ≠ 100) := by
  refine ⟨?_, by norm_num [EpicsTS.toQ], by norm_num⟩
  rw [frameCallback_success_eq exDrvIOC exFrameBayer exImg ⟨100, 0⟩ 0 rfl rfl]
  show ((frameSuccessPath exDrvIOC exFrameBayer exImg ⟨100, 0⟩ 0).1.pArrays0.map
    NDImage.timeStamp) = some 0
  simp only [frameSuccessPath]
  rw [formatDispatch_epicsTS]
  simp [frameTimestamp, bayerConverting, EpicsTS.toQ, exDrvIOC, exCbParams,
    exFrameBayer, exFrame, PSTimestampTypeIOC, PSTimestampTypeNativeTicks,
    PSTimestampTypeNativeSeconds, PSTimestampTypePOSIX, PSTimestampTypeEPICS,
    PSBayerConvertRGB1, PSBayerConvertNone]

/-- C4 (amended): for every successfully decoded frame the retained image
timestamp equals, by selected mode: the raw native tick count; ticks divided
by the device frequency with a zero frequency replaced by 1; the last
clock-sync time plus ticks/frequency expressed as POSIX epoch seconds; the
same expressed as EPICS epoch seconds; or, in IOC mode, the epicsTS carried
by the image at the timestamp switch — the decode-time wall clock except for
Bayer-converted frames, whose freshly allocated replacement image carries
the fresh-allocation stamp instead of the decode-time one.  Any other mode
value falls back to raw ticks. -/
theorem frameCallback_timestamp_modes (s : DrvState) (f : PvFrame)
    (img : NDImage) (now : EpicsTS) (junk : Int)
    (hst : f.status = ePvErrSuccess) (hctx : f.context1 = some img) :
    (frameCallback s f now junk).state.pArrays0.map NDImage.timeStamp =
      some
        (if s.params.psTimestampType = PSTimestampTypeNativeSeconds then
          nativeFrameTicks f /
            ((if s.timeStampFrequency = 0 then 1 else s.timeStampFrequency : Nat) : ℚ)
        else if s.params.psTimestampType = PSTimestampTypePOSIX then
          s.lastSyncTime.toQ +
            nativeFrameTicks f /
              ((if s.timeStampFrequency = 0 then 1 else s.timeStampFrequency : Nat) : ℚ) +
            (POSIX_TIME_AT_EPICS_EPOCH : ℚ)
        else if s.params.psTimestampType = PSTimestampTypeEPICS then
          s.lastSyncTime.toQ +
            nativeFrameTicks f /
              ((if s.timeStampFrequency = 0 then 1 else s.timeStampFrequency : Nat) : ℚ)
        else if s.params.psTimestampType = PSTimestampTypeIOC then
          (if bayerConverting f.format s.params.psBayerConvert then
            (⟨0, 0⟩ : EpicsTS) else now).toQ
        else nativeFrameTicks f) := by
  rw [frameCallback_success_eq s f img now junk hst hctx]
  show ((frameSuccessPath s f img now junk).1.pArrays0.map NDImage.timeStamp) = _
  simp only [frameSuccessPath, Option.map_some]
  rw [formatDispatch_epicsTS]
  simp only [frameTimestamp, nativeFrameTicks, Option.some.injEq]
  by_cases h0 : s.params.psTimestampType = PSTimestampTypeNativeTicks
  · simp [h0, PSTimestampTypeNativeTicks, PSTimestampTypeNativeSeconds,
      PSTimestampTypePOSIX, PSTimestampTypeEPICS, PSTimestampTypeIOC]
  · by_cases h1 : s.params.psTimestampType = PSTimestampTypeNativeSeconds
    · simp [h1, PSTimestampTypeNativeTicks, PSTimestampTypeNativeSeconds,
        PSTimestampTypePOSIX, PSTimestampTypeEPICS, PSTimestampTypeIOC]
    · by_cases h2 : s.params.psTimestampType = PSTimestampTypePOSIX
      · simp [h2, PSTimestampTypeNativeTicks, PSTimestampTypeNativeSeconds,
          PSTimestampTypePOSIX, PSTimestampTypeEPICS, PSTimestampTypeIOC]
      · by_cases h3 : s.params.psTimestampType = PSTimestampTypeEPICS
        · simp [h3, PSTimestampTypeNativeTicks, PSTimestampTypeNativeSeconds,
            PSTimestampTypePOSIX, PSTimestampTypeEPICS, PSTimestampTypeIOC]
        · by_cases h4 : s.params.psTimestampType = PSTimestampTypeIOC
          · simp [h4, PSTimestampTypeNativeTicks, PSTimestampTypeNativeSeconds,
              PSTimestampTypePOSIX, PSTimestampTypeEPICS, PSTimestampTypeIOC]
          · simp [h0, h1, h2, h3, h4]

/-- C4 witness for the amended claim: a concrete mono frame in EPICS mode. -/
theorem frameCallback_timestamp_modes_witness :
    ({ exDrvState with params := { exCbParams with psTimestampType := 3 } } :
        DrvState).params.psTimestampType = PSTimestampTypeEPICS ∧
    exFrame.status = ePvErrSuccess ∧ exFrame.context1 = some exImg ∧
    (frameCallback
        { exDrvState with params := { exCbParams with psTimestampType := 3 } }
        exFrame ⟨60, 0⟩ 0).state.pArrays0.map NDImage.timeStamp =
      some (EpicsTS.toQ ⟨50, 0⟩ + (7 + 1 * 4294967296) / (1000 : ℚ)) := by
  refine ⟨rfl, rfl, rfl, ?_⟩
  have h := frameCallback_timestamp_modes
    { exDrvState with params := { exCbParams with psTimestampType := 3 } }
    exFrame exImg ⟨60, 0⟩ 0 rfl rfl
  rw [h]
  norm_num [EpicsTS.toQ, exDrvState, exCbParams, nativeFrameTicks, exFrame,
    bayerConverting, PSTimestampTypeNativeSeconds, PSTimestampTypePOSIX,
    PSTimestampTypeEPICS, PSTimestampTypeIOC]

/-- The camera attributes readStats reads, in source order. -/
def rsAttrNames : List String :=
  ["StatDriverType", "StatFilterVersion", "StatFrameRate",
   "StreamBytesPerSecond", "PacketSize", "StatFramesCompleted",
   "StatFramesDropped", "StatPacketsErroneous", "StatPacketsMissed",
   "StatPacketsReceived", "StatPacketsRequested", "StatPacketsResent",
   "SyncInLevels", "SyncOutGpoLevels", "FrameStartTriggerDelay",
   "FrameStartTriggerEvent", "FrameStartTriggerOverlap", "SyncOut1Mode",
   "SyncOut2Mode", "SyncOut3Mode", "SyncOut1Invert", "SyncOut2Invert",
   "SyncOut3Invert", "Strobe1Mode", "Strobe1ControlledDuration",
   "Strobe1Delay", "Strobe1Duration"]

/-- The camera attributes readParameters reads, in source order. -/
def rpAttrNames : List String :=
  ["TotalBytesPerFrame", "PixelFormat", "BinningX", "BinningY", "RegionX",
   "RegionY", "Width", "Height", "AcquisitionFrameCount", "AcquisitionMode",
   "FrameStartTriggerMode", "ExposureValue", "FrameRate", "GainValue",
   "ExposureMode", "GainMode"]

/-- An oracle whose StatFramesCompleted and AcquisitionFrameCount reads fail
with an internal fault while every other read succeeds. -/
def exCamFail : CamOracle :=
  { enumErr := fun _ => 0,
    enumVal := fun n => if n = "AcquisitionMode" then "Continuous" else "Off",
    uintErr := fun n =>
      if n = "StatFramesCompleted" then 2
      else if n = "AcquisitionFrameCount" then 2 else 0,
    uintVal := fun _ => 42,
    floatErr := fun _ => 0, floatVal := fun _ => 5,
    strErr := fun _ => 0, strVal := fun _ => "fw" }

/-- A parameter store with indeterminate initial slot contents, used to show
the refreshes overwrite every slot. -/
def exRSParams : RSParams :=
  ⟨"", "", 0, 0, 0, 0, 0, 0, 0, 0, 0, 0, 0, 0, 0, 0, 0, 0, 0, 0, 0, 0, 0,
   0, 0, 0, 0, 0, 0, 0⟩

/-- The readParameters counterpart of `exRSParams`. -/
def exRPParams : RPParams :=
  ⟨0, 0, 0, ⟨0, 0, 0, 0, 0, 0, 0, 0⟩, 0, 0, 0, 0, 0, 0, 0, 0, 0⟩

set_option maxHeartbeats 1000000 in
/-- C9: in both batch refreshes (readStats and readParameters) a failing
attribute get is accumulated into the aggregate status code and does not
abort the batch: every single get ORs its error code into the accumulated
status; for every oracle, every mirror slot is overwritten independently of
the previous store contents; and under an oracle whose StatFramesCompleted
and AcquisitionFrameCount reads fail, every attribute of each batch is still
attempted in source order, the aggregate status of each batch ends nonzero,
and the attributes immediately following the failing ones
(StatFramesDropped and AcquisitionMode) are still read and mirrored. -/
theorem batch_refresh_no_abort (cam : CamOracle) (b : String) (u : Nat)
    (q0 : ℚ) (gj : GeoJunk) (p q : RSParams) (p2 q2 : RPParams) :
    (readStats cam b u q0 p).store = (readStats cam b u q0 q).store ∧
    (readParameters cam b u q0 gj p2).store =
      (readParameters cam b u q0 gj q2).store ∧
    (∀ n a, (enumGetStep cam n a).status = a.status ||| cam.enumErr n) ∧
    (∀ n a, (strGetStep cam n a).status = a.status ||| cam.strErr n) ∧
    (∀ n a, (uintGetStep cam n a).status = a.status ||| cam.uintErr n) ∧
    (∀ n a, (floatGetStep cam n a).status = a.status ||| cam.floatErr n) ∧
    exCamFail.uintErr "StatFramesCompleted" ≠ 0 ∧
    (readStats exCamFail "" 0 0 exRSParams).attempted = rsAttrNames ∧
    (readStats exCamFail "" 0 0 exRSParams).status ≠ 0 ∧
    (readStats exCamFail "" 0 0 exRSParams).store.framesDropped = 42 ∧
    exCamFail.uintErr "AcquisitionFrameCount" ≠ 0 ∧
    (readParameters exCamFail "" 0 0 ⟨0, 0, 0, 0⟩ exRPParams).attempted =
      rpAttrNames ∧
    (readParameters exCamFail "" 0 0 ⟨0, 0, 0, 0⟩ exRPParams).status ≠ 0 ∧
    (readParameters exCamFail "" 0 0 ⟨0, 0, 0, 0⟩ exRPParams).store.imageMode =
      ADImageContinuous := by
  refine ⟨rfl, rfl, fun n a => rfl, fun n a => rfl, fun n a => rfl,
    fun n a => rfl, by decide, by decide, by decide, by decide, by decide,
    by decide, by decide, by decide⟩

end Prosilica
